import Mathlib

/-!
Verification of the asynchronous financial-analysis job engine.

Shallow embedding of:
  * `app/tasks/analysis_task.py` — the phase pipeline (`financial_analysis`),
    modelled as a pure function from the outcomes of the four phase functions
    (research plan, three resource searches, analysis, self-reflection) to the
    sequence of `update_state` calls it performs, the locally accumulated
    `result["phases"]` dictionary, and its final outcome (returned result dict
    or raised exception).
  * `app/api/routes/analysis.py` — the submission, status, SSE stream and
    cancel endpoints, modelled over an abstract view of the Celery result
    backend (`AsyncResult`: state string, the shape of `task_result.info` —
    `None`, a meta dict, or an exception instance, as for FAILURE and REVOKED
    tasks —, the string rendering of `info`, and the result).
  * `app/schemas/analysis.py` — request validation (pydantic field
    constraints) and the status response shape.
-/

instance {ε α : Type} [DecidableEq ε] [DecidableEq α] : DecidableEq (Except ε α) :=
  fun a b =>
    match a, b with
    | .ok x, .ok y => if h : x = y then .isTrue (by rw [h]) else .isFalse (by simp [h])
    | .error x, .error y => if h : x = y then .isTrue (by rw [h]) else .isFalse (by simp [h])
    | .ok _, .error _ => .isFalse (by simp)
    | .error _, .ok _ => .isFalse (by simp)

/-- A progress metadata dictionary as passed to Celery `update_state(meta=...)`
and read back through `task_result.info`.  Every key the task ever writes is a
field; a `none` field models an absent key. -/
structure MetaDict where
  phase : Option String := none
  status : Option String := none
  message : Option String := none
  progress : Option Nat := none
  result : Option String := none
  error : Option String := none
  searches_completed : Option Nat := none
  total_searches : Option Nat := none
deriving DecidableEq

/-- The value stored for one phase in `result["phases"]`: the planning,
analysis and validation phases store one text, the research phase stores the
list of the three search results. -/
inductive PhaseOutput where
  | text : String → PhaseOutput
  | texts : List String → PhaseOutput
deriving DecidableEq

/-- The dict returned by `financial_analysis` on success:
`{"query": ..., "phases": {...}, "status": "completed"}`, with `phases` an
insertion-ordered association list. -/
structure AnalysisResult where
  query : String
  phases : List (String × PhaseOutput)
  status : String
deriving DecidableEq

/-- Outcome of one call to an external phase function: the returned text, or
the message of the exception it raised. -/
abbrev PhaseCall := Except String String

/-- The outcomes of the six external calls the pipeline makes, in program
order: `call_research_plan`, the three `call_resource_search` calls,
`call_generate_analysis`, `call_self_reflection`.  These are the opaque
collaborators of the spec; the pipeline itself is deterministic in them. -/
structure PhaseOutcomes where
  plan : PhaseCall
  search1 : PhaseCall
  search2 : PhaseCall
  search3 : PhaseCall
  analysis : PhaseCall
  reflection : PhaseCall
deriving DecidableEq

/-- Result of one run of `financial_analysis`: the ordered list of
`(state, meta)` pairs passed to `self.update_state`, the final value of the
local `result["phases"]` dict (also on failure, when it is the phases
accumulated before the exception), and the returned dict or raised error. -/
structure RunResult where
  updates : List (String × MetaDict)
  phasesAcc : List (String × PhaseOutput)
  outcome : Except String AnalysisResult
deriving DecidableEq

/-- The `except` block of `financial_analysis`: one final
`update_state(state="FAILURE", meta={phase: "error", status: "failed",
message: "❌ Analysis failed: ...", error: str(e)})` and a re-raise. -/
def failRes (us : List (String × MetaDict)) (ph : List (String × PhaseOutput))
    (e : String) : RunResult :=
  { updates := us ++ [("FAILURE",
      { phase := some "error", status := some "failed",
        message := some ("❌ Analysis failed: " ++ e), error := some e })],
    phasesAcc := ph,
    outcome := .error e }

/-- The progress update emitted after the `i`-th search (1-based):
`progress = 30 + (idx + 1) * 10`. -/
def searchUpdate (i : Nat) : String × MetaDict :=
  ("PROGRESS",
    { phase := some "research", status := some "in_progress",
      message := some ("🔍 Completed search " ++ toString i ++ "/3"),
      progress := some (30 + i * 10),
      searches_completed := some i, total_searches := some 3 })

/-- The first progress update of the pipeline (planning started, progress 10). -/
def planningStart : String × MetaDict :=
  ("PROGRESS",
    { phase := some "planning", status := some "started",
      message := some "📋 Decomposing financial query into research dimensions...",
      progress := some 10 })

/-- Progress update after the plan is stored (progress 25, meta carries the plan). -/
def planningDone (plan : String) : String × MetaDict :=
  ("PROGRESS",
    { phase := some "planning", status := some "completed",
      message := some "✅ Research plan created",
      progress := some 25, result := some plan })

/-- Progress update announcing the research phase (progress 30). -/
def researchStart : String × MetaDict :=
  ("PROGRESS",
    { phase := some "research", status := some "started",
      message := some "🔍 Gathering market data, news, and expert analysis...",
      progress := some 30 })

/-- Progress update after all searches are stored (progress 60). -/
def researchDone : String × MetaDict :=
  ("PROGRESS",
    { phase := some "research", status := some "completed",
      message := some "✅ Research completed", progress := some 60 })

/-- Progress update announcing the analysis phase (progress 65). -/
def analysisStart : String × MetaDict :=
  ("PROGRESS",
    { phase := some "analysis", status := some "started",
      message := some "🎯 Synthesizing findings into causal logic and scenarios...",
      progress := some 65 })

/-- Progress update after the analysis is stored (progress 85). -/
def analysisDone : String × MetaDict :=
  ("PROGRESS",
    { phase := some "analysis", status := some "completed",
      message := some "✅ Analysis generated", progress := some 85 })

/-- Progress update announcing the validation phase (progress 90). -/
def validationStart : String × MetaDict :=
  ("PROGRESS",
    { phase := some "validation", status := some "started",
      message := some "🔧 Auditing analysis quality and logical consistency...",
      progress := some 90 })

/-- Progress update after the reflection is stored (progress 95). -/
def validationDone : String × MetaDict :=
  ("PROGRESS",
    { phase := some "validation", status := some "completed",
      message := some "✅ Quality validation complete", progress := some 95 })

/-- Shallow embedding of `financial_analysis` from
`app/tasks/analysis_task.py`.  Phase 1 `call_research_plan` (a falsy result
raises `ValueError("Failed to generate research plan")`), phase 2 three
sequential `call_resource_search` calls over the fixed query list of length 3,
phase 3 `call_generate_analysis` (falsy result raises
`ValueError("Failed to generate analysis")`), phase 4 `call_self_reflection`
(no falsy check).  Each phase writes its output into `result["phases"]` before
the corresponding "completed" progress update; any exception runs the
`except` block (`failRes`) and re-raises. -/
def financial_analysis (query : String) (o : PhaseOutcomes) : RunResult :=
  match o.plan with
  | .error e => failRes [planningStart] [] e
  | .ok plan =>
    if plan = "" then failRes [planningStart] [] "Failed to generate research plan"
    else
      let phases1 := [("planning", PhaseOutput.text plan)]
      match o.search1 with
      | .error e => failRes [planningStart, planningDone plan, researchStart] phases1 e
      | .ok r1 =>
        match o.search2 with
        | .error e =>
          failRes [planningStart, planningDone plan, researchStart, searchUpdate 1] phases1 e
        | .ok r2 =>
          match o.search3 with
          | .error e =>
            failRes [planningStart, planningDone plan, researchStart,
              searchUpdate 1, searchUpdate 2] phases1 e
          | .ok r3 =>
            let phases2 := phases1 ++ [("research", PhaseOutput.texts [r1, r2, r3])]
            match o.analysis with
            | .error e =>
              failRes [planningStart, planningDone plan, researchStart,
                searchUpdate 1, searchUpdate 2, searchUpdate 3,
                researchDone, analysisStart] phases2 e
            | .ok ana =>
              if ana = "" then
                failRes [planningStart, planningDone plan, researchStart,
                  searchUpdate 1, searchUpdate 2, searchUpdate 3,
                  researchDone, analysisStart] phases2 "Failed to generate analysis"
              else
                let phases3 := phases2 ++ [("analysis", PhaseOutput.text ana)]
                match o.reflection with
                | .error e =>
                  failRes [planningStart, planningDone plan, researchStart,
                    searchUpdate 1, searchUpdate 2, searchUpdate 3,
                    researchDone, analysisStart, analysisDone, validationStart] phases3 e
                | .ok refl =>
                  let phases4 := phases3 ++ [("validation", PhaseOutput.text refl)]
                  { updates := [planningStart, planningDone plan, researchStart,
                      searchUpdate 1, searchUpdate 2, searchUpdate 3,
                      researchDone, analysisStart, analysisDone, validationStart,
                      validationDone],
                    phasesAcc := phases4,
                    outcome := .ok { query := query, phases := phases4, status := "completed" } }

/-- The sequence of progress values a run makes observable: the `progress`
keys of all metas written through `update_state` (the FAILURE meta carries no
`progress` key), followed by the `100` the status endpoint reports once the
Celery state is SUCCESS. -/
def reportedProgressTrace (r : RunResult) : List Nat :=
  r.updates.filterMap (fun u => u.2.progress) ++
    (match r.outcome with
     | .ok _ => [100]
     | .error _ => [])

/-- Errors a route can surface to the caller as an HTTP error response.  The
routes in `app/api/routes/analysis.py` only ever raise 500 (`serverError`,
from the blanket `except` blocks; its `detail` string — the Python rendering
of the caught exception — is not tracked by this embedding); `notFound`
exists in the model so that the spec's `NotFound` contract is statable. -/
inductive HttpError where
  | notFound
  | serverError
deriving DecidableEq

/-- The Python shape of `task_result.info`: `None` (no meta stored for the
id), a dict (the progress meta a running task wrote, or the result dict of a
SUCCESS task), or a rehydrated exception instance — what the Celery backend
returns for FAILURE, RETRY and REVOKED tasks.  Calling `.get` on an
exception-shaped info raises `AttributeError`. -/
inductive BackendInfo where
  | pyNone
  | pyDict : MetaDict → BackendInfo
  | pyExc
deriving DecidableEq

/-- An empty meta dict: the `or` default in `current_info = task_result.info or` the
empty dict, and the missing-key defaults of `.get`. -/
def emptyMeta : MetaDict := {}

/-- The dict view `task_result.info or` the empty dict, read with `.get`:
`None` behaves as the empty dict.  Only meaningful for non-exception infos —
the code paths that reach it have already ruled `pyExc` out (on `pyExc` the
real `.get` raises instead). -/
def BackendInfo.dictView : BackendInfo → MetaDict
  | .pyDict m => m
  | _ => emptyMeta

/-- The view a route has of a Celery `AsyncResult`: the backend state string,
the shape of `task_result.info` (`BackendInfo`), the Python string rendering
`str(task_result.info)` (used by the FAILURE branch of the status read: for a
failed task `info` is the raised exception and `str(info)` is its message),
and `task_result.result` (the dict returned on success). -/
structure AsyncResult where
  state : String
  info : BackendInfo
  info_str : String
  result : Option AnalysisResult
deriving DecidableEq

/-- Celery's view of an id the backend holds nothing for: an unknown, expired
or merely not-yet-started task id is reported as state PENDING with no meta.
This is the documented contract of the Celery result backend (an `AsyncResult`
for an arbitrary id never fails; it reports PENDING); the routes build on it. -/
def unknownTaskBackend : AsyncResult :=
  { state := "PENDING", info := .pyNone, info_str := "None", result := none }

/-- Response schema `AnalysisStatusResponse` from `app/schemas/analysis.py`:
all fields other than `task_id` and `state` are optional and default to
absent. -/
structure AnalysisStatusResponse where
  task_id : String
  state : String
  status : Option String
  message : Option String
  progress : Option Nat
  phase : Option String
  result : Option AnalysisResult
  error : Option String
deriving DecidableEq

/-- Shallow embedding of the `GET /analysis/status/{task_id}` handler
`get_analysis_status`: dispatch on the backend state string; the four handled
states fill in status/message/progress (and phase, result or error); any
other state falls through and the response carries only the id and the raw
state.  The handler has no not-found path: the only error it can produce is
the 500 of its blanket `except` block, reachable in the PROGRESS branch when
`info` is exception-shaped and `info.get(...)` raises `AttributeError` (a
combination no analysis run produces, since the task only sets PROGRESS with
dict metas). -/
def get_analysis_status (task_id : String) (t : AsyncResult) :
    Except HttpError AnalysisStatusResponse :=
  if t.state = "PENDING" then
    .ok { task_id := task_id, state := t.state, status := some "pending",
          message := some "Task is waiting to be processed", progress := some 0,
          phase := none, result := none, error := none }
  else if t.state = "PROGRESS" then
    if t.info = BackendInfo.pyExc then .error HttpError.serverError
    else
      let info := t.info.dictView
      .ok { task_id := task_id, state := t.state,
            status := some (info.status.getD "processing"),
            message := some (info.message.getD "Processing..."),
            progress := some (info.progress.getD 0),
            phase := info.phase, result := none, error := none }
  else if t.state = "SUCCESS" then
    .ok { task_id := task_id, state := t.state, status := some "completed",
          message := some "Analysis completed successfully", progress := some 100,
          phase := none, result := t.result, error := none }
  else if t.state = "FAILURE" then
    .ok { task_id := task_id, state := t.state, status := some "failed",
          message := some "Analysis failed", progress := none,
          phase := none, result := none, error := some t.info_str }
  else
    .ok { task_id := task_id, state := t.state, status := none, message := none,
          progress := none, phase := none, result := none, error := none }

/-- The backend record once a pipeline run has finished: Celery stores the
returned dict under SUCCESS (so `info` is that dict — of its keys only
`status`, always `"completed"`, coincides with a meta key; `str` of it is not
tracked), or the raised exception instance under FAILURE (whose `str` is the
exception message). -/
def backendAfterRun (r : RunResult) : AsyncResult :=
  match r.outcome with
  | .ok res =>
    { state := "SUCCESS", info := .pyDict { status := some "completed" },
      info_str := "", result := some res }
  | .error e => { state := "FAILURE", info := .pyExc, info_str := e, result := none }

/-- A submission as it arrives on the wire, before pydantic validation: any
field may be missing.  `user_context` is an opaque optional map. -/
structure RawSubmission where
  query : Option String
  user_context : Option (List (String × String))
  reasoning_depth : Option String
deriving DecidableEq

/-- The validated request model `AnalysisRequest` from
`app/schemas/analysis.py`. -/
structure AnalysisRequest where
  query : String
  user_context : Option (List (String × String))
  reasoning_depth : String
deriving DecidableEq

/-- Pydantic validation of `AnalysisRequest`: `query` is required with
`min_length=10, max_length=1000`; `reasoning_depth` is
`Literal["standard", "deep"]` defaulting to `"standard"`.  A violation is
rejected before the handler body runs. -/
def validateAnalysisRequest (r : RawSubmission) : Except String AnalysisRequest :=
  match r.query with
  | none => .error "field required: query"
  | some q =>
    if q.length < 10 then .error "query: string should have at least 10 characters"
    else if 1000 < q.length then .error "query: string should have at most 1000 characters"
    else
      let d := r.reasoning_depth.getD "standard"
      if d = "standard" ∨ d = "deep" then
        .ok { query := q, user_context := r.user_context, reasoning_depth := d }
      else .error "reasoning_depth: input should be standard or deep"

/-- Response schema `AnalysisResponse` for a successful submission. -/
structure AnalysisResponse where
  task_id : String
  status : String
  message : String
deriving DecidableEq

/-- Shallow embedding of the `POST /analysis/start` handler
`start_financial_analysis`: after validation it enqueues the task with
`.delay(...)` — returning the validated request that was dispatched, not any
execution result — and immediately returns the fresh task id with status
"started".  The phase outcomes are not an input: the response cannot depend
on pipeline execution. -/
def start_financial_analysis (raw : RawSubmission) (freshId : String) :
    Except String (AnalysisResponse × AnalysisRequest) :=
  match validateAnalysisRequest raw with
  | .error e => .error e
  | .ok req =>
    .ok ({ task_id := freshId, status := "started",
           message := "Financial analysis started. Use the task_id to check progress." },
         req)

/-- Response of the cancel endpoint. -/
structure CancelResponse where
  task_id : String
  status : String
deriving DecidableEq

/-- The broadcast revocation state of the Celery control plane: the ids for
which `control.revoke(id, terminate=True)` has been issued. -/
structure ControlState where
  revoked : List String
deriving DecidableEq

/-- Shallow embedding of the `DELETE /analysis/cancel/{task_id}` handler
`cancel_analysis`: it consults no job store — for any id it records the
revoke request with the control plane and returns
`(task_id, status := "cancelled")`.  No branch inspects whether the id is
known or the task terminal. -/
def cancel_analysis (task_id : String) (c : ControlState) :
    Except HttpError CancelResponse × ControlState :=
  (.ok { task_id := task_id, status := "cancelled" },
   { revoked := task_id :: c.revoked })

/-- The hashable comparison key the SSE loop builds each cycle:
`(current_state, info.get("phase"), info.get("progress"), info.get("status"))`.
Only computed on cycles whose info is not exception-shaped — on those the
real `.get` raises before the key exists (see `streamFrom`). -/
def streamKey (t : AsyncResult) : String × Option String × Option Nat × Option String :=
  let m := t.info.dictView
  (t.state, m.phase, m.progress, m.status)

/-- One SSE `data:` payload of the stream endpoint. -/
structure StreamEvent where
  state : String
  phase : Option String
  status : Option String
  message : Option String
  progress : Option Nat
  result : Option AnalysisResult
  error : Option String
deriving DecidableEq

/-- Stream payload for backend state PENDING. -/
def pendingEvent : StreamEvent :=
  { state := "PENDING", phase := none, status := none,
    message := some "Task is queued", progress := some 0,
    result := none, error := none }

/-- Stream payload for backend state PROGRESS (meta fields passed through,
progress defaulting to 0). -/
def progressEvent (m : MetaDict) : StreamEvent :=
  { state := "PROGRESS", phase := m.phase, status := m.status,
    message := m.message, progress := some (m.progress.getD 0),
    result := none, error := none }

/-- Final stream payload for backend state SUCCESS. -/
def successEvent (t : AsyncResult) : StreamEvent :=
  { state := "SUCCESS", phase := none, status := none,
    message := some "Analysis completed", progress := some 100,
    result := t.result, error := none }

/-- Final stream payload for backend state FAILURE (`error` is the string
rendering of the info object). -/
def failureEvent (t : AsyncResult) : StreamEvent :=
  { state := "FAILURE", phase := none, status := none,
    message := some "Analysis failed", progress := none,
    result := none, error := some t.info_str }

/-- Stream payload for an unhandled backend state: the raw state string is
passed through. -/
def otherEvent (s : String) : StreamEvent :=
  { state := s, phase := none, status := none,
    message := some ("Task state: " ++ s), progress := none,
    result := none, error := none }

/-- Synthetic payload emitted when the polling loop exhausts its 600
iterations. -/
def timeoutEvent : StreamEvent :=
  { state := "TIMEOUT", phase := none, status := none,
    message := some "Streaming timeout reached", progress := none,
    result := none, error := none }

/-- Final payload yielded by the generator's blanket `except` block when a
polling cycle raises: an exception-shaped `info` makes `current_info.get`
raise `AttributeError` while the comparison key is being built, and the
handler yields `{"state": "ERROR", "message": "Stream error: ..."}` and
stops.  The message text (the Python rendering of the `AttributeError`) is
not tracked by this embedding, so the field is left absent; no claim
depends on it. -/
def streamErrorEvent : StreamEvent :=
  { state := "ERROR", phase := none, status := none,
    message := none, progress := none,
    result := none, error := none }

/-- The payload built in the non-terminal branches of the loop body. -/
def nonTerminalEvent (t : AsyncResult) : StreamEvent :=
  if t.state = "PENDING" then pendingEvent
  else if t.state = "PROGRESS" then progressEvent t.info.dictView
  else otherEvent t.state

/-- Shallow embedding of the polling loop of `event_generator` in the
`GET /analysis/stream/{task_id}` handler.  `trace j` is the backend view at
polling cycle `j`; `lastKey` is the key of the last emitted snapshot (`none`
before the first emission); `i` is the iteration counter; `fuel` is the number
of iterations left before `max_iterations` (600) is reached, at which point
the synthetic timeout payload is emitted.  Each produced pair records the
cycle at which its snapshot was emitted.  A cycle whose `info` is an
exception instance (a FAILURE or REVOKED task) raises `AttributeError` while
the comparison key `info_key` is being built — before `should_send` or any
state branch — so the blanket `except` yields the final ERROR payload and the
generator stops; the FAILURE branch below is therefore dead code for real
failed tasks.  On a non-exception cycle, the loop condition
`should_send = (info_key != last_info) or (iterations mod 5 == 0)` is encoded
by its negation in the first branch; on SUCCESS/FAILURE the loop emits the
terminal payload and breaks; otherwise it emits (when sending), remembers the
key, re-checks the terminal break condition, and polls the next cycle. -/
def streamFrom (trace : Nat → AsyncResult) :
    Option (String × Option String × Option Nat × Option String) →
    Nat → Nat → List (Nat × StreamEvent)
  | _, i, 0 => [(i, timeoutEvent)]
  | lastKey, i, fuel + 1 =>
    let t := trace i
    if t.info = BackendInfo.pyExc then [(i, streamErrorEvent)]
    else
      let k := streamKey t
      if lastKey = some k ∧ ¬ i % 5 = 0 then
        if t.state = "SUCCESS" ∨ t.state = "FAILURE" then []
        else streamFrom trace lastKey (i + 1) fuel
      else
        if t.state = "SUCCESS" then [(i, successEvent t)]
        else if t.state = "FAILURE" then [(i, failureEvent t)]
        else
          (i, nonTerminalEvent t) ::
            (if t.state = "SUCCESS" ∨ t.state = "FAILURE" then []
             else streamFrom trace (some k) (i + 1) fuel)

/-- The full event stream for one subscription: `last_info = None`,
`iterations = 0`, `max_iterations = 600`. -/
def event_generator (trace : Nat → AsyncResult) : List (Nat × StreamEvent) :=
  streamFrom trace none 0 600

/-- Modelled from the spec: the snapshot tuple the spec says drives change
detection — `(state, phase, progress, message)` — to be compared with the
`(state, phase, progress, status)` key the source actually uses
(`streamKey`). -/
def specChangeTuple (t : AsyncResult) :
    String × Option String × Option Nat × Option String :=
  let m := t.info.dictView
  (t.state, m.phase, m.progress, m.message)

/-- Modelled from the spec: a well-formed submission per the spec's words —
query text present, between 10 and 1000 characters, and a reasoning depth of
standard or deep when given. -/
def specWellFormedSubmission (r : RawSubmission) : Prop :=
  ∃ q, r.query = some q ∧ 10 ≤ q.length ∧ q.length ≤ 1000 ∧
    (r.reasoning_depth = none ∨ r.reasoning_depth = some "standard" ∨
      r.reasoning_depth = some "deep")

/-- The pipeline's phases in execution order. -/
def phaseNames : List String := ["planning", "research", "analysis", "validation"]

/-- A phase call whose result the pipeline accepts without raising: for the
plan and the analysis a falsy (empty) result raises, so success there means a
non-empty text. -/
def okNonemptyText : PhaseCall → Bool
  | .ok s => !(s = "")
  | .error _ => false

/-- A phase call that returned at all. -/
def okText : PhaseCall → Bool
  | .ok _ => true
  | .error _ => false

/-- Every phase of a run succeeds, in the sense the code accepts. -/
def phasesAllSucceed (o : PhaseOutcomes) : Bool :=
  okNonemptyText o.plan && okText o.search1 && okText o.search2 &&
    okText o.search3 && okNonemptyText o.analysis && okText o.reflection

/-- A phase-call outcome whose failure message, if any, is non-empty (the
string rendering of the raised exception). -/
def errMsgNonempty : PhaseCall → Bool
  | .error e => !(e = "")
  | .ok _ => true

/-- All six external calls carry non-empty failure messages. -/
def nonemptyFailureMsgs (o : PhaseOutcomes) : Bool :=
  errMsgNonempty o.plan && errMsgNonempty o.search1 && errMsgNonempty o.search2 &&
    errMsgNonempty o.search3 && errMsgNonempty o.analysis && errMsgNonempty o.reflection

/-- The text of a successful phase call (placeholder for a failed one). -/
def okTextD : PhaseCall → String
  | .ok s => s
  | .error _ => ""

/-- Task states Celery itself assigns (the task's own custom states are
whatever `update_state` writes, i.e. the first components of
`RunResult.updates`). -/
def celeryBuiltinStates : List String :=
  ["PENDING", "STARTED", "RETRY", "REVOKED", "SUCCESS", "FAILURE"]

/-- A backend state string that can actually occur for an analysis job:
either a state Celery assigns or a state some pipeline run writes. -/
def reachableBackendState (s : String) : Prop :=
  s ∈ celeryBuiltinStates ∨
    ∃ q o u, u ∈ (financial_analysis q o).updates ∧ u.1 = s

/-- A concrete all-successful set of phase outcomes, used by witnesses and
counterexamples. -/
def oAllOk : PhaseOutcomes :=
  { plan := .ok "the research plan", search1 := .ok "search result one",
    search2 := .ok "search result two", search3 := .ok "search result three",
    analysis := .ok "the analysis", reflection := .ok "the reflection" }

/-- A concrete backend trace for the stream counterexample: at cycle 0 a
PROGRESS meta, at cycle 1 the same meta with only `message` changed (same
state, phase, progress and status), from cycle 2 on SUCCESS. -/
def traceMsgOnlyChange : Nat → AsyncResult
  | 0 => { state := "PROGRESS",
           info := .pyDict { phase := some "planning", status := some "started",
                             message := some "first message", progress := some 10 },
           info_str := "", result := none }
  | 1 => { state := "PROGRESS",
           info := .pyDict { phase := some "planning", status := some "started",
                             message := some "second message", progress := some 10 },
           info_str := "", result := none }
  | _ + 2 => { state := "SUCCESS", info := .pyDict { status := some "completed" },
               info_str := "", result := none }

/-- A concrete trace that is PENDING at cycle 0 and SUCCESS from cycle 1 on. -/
def tracePendingThenSuccess : Nat → AsyncResult
  | 0 => unknownTaskBackend
  | _ + 1 => { state := "SUCCESS", info := .pyDict { status := some "completed" },
               info_str := "", result := none }

/-- A concrete trace of a failing job, as Celery actually reports it: PENDING
at cycle 0, then FAILURE with an exception-shaped `info` from cycle 1 on. -/
def traceFailingJob : Nat → AsyncResult
  | 0 => unknownTaskBackend
  | _ + 1 => { state := "FAILURE", info := .pyExc,
               info_str := "network unreachable", result := none }

/-- A backend view in the REVOKED state — what `AsyncResult` reports for a
task that was revoked: the info is the rehydrated `TaskRevokedError`
exception instance. -/
def revokedBackend : AsyncResult :=
  { state := "REVOKED", info := .pyExc, info_str := "terminated", result := none }

/-- C1: for every execution of the phase pipeline — whatever the outcomes of
the six external calls — the sequence of progress values it writes
(10, 25, 30, 30 + 10 per completed search up to 60, then 60, 65, 85, 90, 95,
and the 100 reported on success) is monotonically non-decreasing. -/
theorem progress_monotone (q : String) (o : PhaseOutcomes) :
    List.Chain' (· ≤ ·) (reportedProgressTrace (financial_analysis q o)) := by
  obtain ⟨pl, s1, s2, s3, an, rf⟩ := o
  cases pl <;> cases s1 <;> cases s2 <;> cases s3 <;> cases an <;> cases rf <;>
    simp only [financial_analysis, failRes, reportedProgressTrace, searchUpdate,
      planningStart, planningDone, researchStart, researchDone, analysisStart,
      analysisDone, validationStart, validationDone] <;>
    (try split_ifs) <;>
    (try simp_all)

/-- Every state string the pipeline ever passes to `update_state` is PROGRESS
or FAILURE (checked over all branches of the run). -/
theorem financial_analysis_update_states (q : String) (o : PhaseOutcomes) :
    ((financial_analysis q o).updates.all
      (fun u => u.1 == "PROGRESS" || u.1 == "FAILURE")) = true := by
  obtain ⟨pl, s1, s2, s3, an, rf⟩ := o
  cases pl <;> cases s1 <;> cases s2 <;> cases s3 <;> cases an <;> cases rf <;>
    simp only [financial_analysis] <;> (try split_ifs) <;>
    simp [failRes, planningStart, planningDone, researchStart, researchDone,
      analysisStart, analysisDone, validationStart, validationDone, searchUpdate]

/-- No pipeline run ever writes the state CANCELLED. -/
theorem update_state_ne_cancelled (q : String) (o : PhaseOutcomes) :
    ∀ u ∈ (financial_analysis q o).updates, ¬ u.1 = "CANCELLED" := by
  intro u hu
  have h := List.all_eq_true.mp (financial_analysis_update_states q o) u hu
  simp only [Bool.or_eq_true, beq_iff_eq] at h
  rcases h with h | h <;> simp [h]

/-- C2: if any phase call fails, the run raises, Celery records FAILURE, the
recorded error is the (non-empty) exception message, the remaining phases are
not invoked, and the accumulated phase outputs are exactly the phases
completed before the failing one — a strict prefix of the four-phase list. -/
theorem phase_failure_aborts (q : String) (o : PhaseOutcomes)
    (hmsg : nonemptyFailureMsgs o = true) (e : String)
    (hf : (financial_analysis q o).outcome = .error e) :
    ¬ e = "" ∧
    (financial_analysis q o).phasesAcc.length < 4 ∧
    (financial_analysis q o).phasesAcc.map Prod.fst =
      phaseNames.take ((financial_analysis q o).phasesAcc.length) ∧
    ∀ id, get_analysis_status id (backendAfterRun (financial_analysis q o)) =
      .ok { task_id := id, state := "FAILURE", status := some "failed",
            message := some "Analysis failed", progress := none,
            phase := none, result := none, error := some e } := by
  obtain ⟨pl, s1, s2, s3, an, rf⟩ := o
  cases pl <;> cases s1 <;> cases s2 <;> cases s3 <;> cases an <;> cases rf <;>
    simp only [financial_analysis] at hf ⊢ <;>
    (try split_ifs at hf ⊢) <;>
    simp_all [nonemptyFailureMsgs, errMsgNonempty, failRes, phaseNames,
      backendAfterRun, get_analysis_status] <;>
    (try (subst hf; simp))

/-- Witness for C2 at a concrete failing run: the first search raises a
network error, so the status read reports FAILURE with that error and only
the planning output was accumulated. -/
theorem phase_failure_aborts_check :
    get_analysis_status "job-7"
      (backendAfterRun (financial_analysis "Should I rotate out of token X?"
        { plan := .ok "the research plan", search1 := .error "network unreachable",
          search2 := .ok "b", search3 := .ok "c",
          analysis := .ok "d", reflection := .ok "e" })) =
      .ok { task_id := "job-7", state := "FAILURE", status := some "failed",
            message := some "Analysis failed", progress := none,
            phase := none, result := none, error := some "network unreachable" } :=
  (phase_failure_aborts "Should I rotate out of token X?"
    { plan := .ok "the research plan", search1 := .error "network unreachable",
      search2 := .ok "b", search3 := .ok "c",
      analysis := .ok "d", reflection := .ok "e" }
    (by decide) "network unreachable" (by decide)).2.2.2 "job-7"

/-- C3: when every phase call succeeds (in the sense the code accepts — the
plan and the analysis must also be non-empty), the run returns the aggregate
result keyed by phase name in execution order, Celery records SUCCESS, and the
status read reports progress exactly 100 with that result. -/
theorem pipeline_success_aggregation (q : String) (o : PhaseOutcomes)
    (h : phasesAllSucceed o = true) :
    (financial_analysis q o).outcome =
      .ok { query := q,
            phases := [("planning", PhaseOutput.text (okTextD o.plan)),
              ("research", PhaseOutput.texts
                [okTextD o.search1, okTextD o.search2, okTextD o.search3]),
              ("analysis", PhaseOutput.text (okTextD o.analysis)),
              ("validation", PhaseOutput.text (okTextD o.reflection))],
            status := "completed" } ∧
    ∀ id, get_analysis_status id (backendAfterRun (financial_analysis q o)) =
      .ok { task_id := id, state := "SUCCESS", status := some "completed",
            message := some "Analysis completed successfully", progress := some 100,
            phase := none,
            result := some
              { query := q,
                phases := [("planning", PhaseOutput.text (okTextD o.plan)),
                  ("research", PhaseOutput.texts
                    [okTextD o.search1, okTextD o.search2, okTextD o.search3]),
                  ("analysis", PhaseOutput.text (okTextD o.analysis)),
                  ("validation", PhaseOutput.text (okTextD o.reflection))],
                status := "completed" },
            error := none } := by
  obtain ⟨pl, s1, s2, s3, an, rf⟩ := o
  cases pl <;> cases s1 <;> cases s2 <;> cases s3 <;> cases an <;> cases rf <;>
    simp_all [phasesAllSucceed, okNonemptyText, okText, okTextD, financial_analysis,
      backendAfterRun, get_analysis_status]

/-- Witness for C3 at the scenario input: all phases succeed, the final state
is SUCCESS with all four phase outputs aggregated in order. -/
theorem pipeline_success_aggregation_check :
    (financial_analysis "Should I rotate out of token X given recent volatility?"
        oAllOk).outcome =
      .ok { query := "Should I rotate out of token X given recent volatility?",
            phases := [("planning", PhaseOutput.text "the research plan"),
              ("research", PhaseOutput.texts
                ["search result one", "search result two", "search result three"]),
              ("analysis", PhaseOutput.text "the analysis"),
              ("validation", PhaseOutput.text "the reflection")],
            status := "completed" } := by
  have h := (pipeline_success_aggregation
    "Should I rotate out of token X given recent volatility?" oAllOk (by decide)).1
  simpa [oAllOk, okTextD] using h

/-- C4 counterexample: a cancellation request recorded with the control plane
has no effect on the pipeline — `financial_analysis` takes no cancellation
flag and checks none (there is no flag read anywhere in its branches) — so
with the request recorded and every phase succeeding, all four phases still
complete and the job ends SUCCESS, not CANCELLED. -/
theorem cancel_request_ignored_by_runner :
    (cancel_analysis "job-1" { revoked := [] }).2.revoked = ["job-1"] ∧
    (cancel_analysis "job-1" { revoked := [] }).1 =
      .ok { task_id := "job-1", status := "cancelled" } ∧
    (backendAfterRun (financial_analysis "cancel me mid-flight" oAllOk)).state =
      "SUCCESS" ∧
    ¬ (backendAfterRun (financial_analysis "cancel me mid-flight" oAllOk)).state =
      "CANCELLED" ∧
    (financial_analysis "cancel me mid-flight" oAllOk).phasesAcc.map Prod.fst =
      ["planning", "research", "analysis", "validation"] := by
  decide

/-- C4 (amended): the runner performs no cancellation check at all.  A cancel
request merely records a revoke with the execution substrate and is accepted
for any id; if the worker is not killed, the pipeline runs to its own outcome
(SUCCESS or FAILURE) regardless of the request, and no update the runner ever
writes carries the state CANCELLED. -/
theorem runner_has_no_cancellation_check (q : String) (o : PhaseOutcomes)
    (id : String) (c : ControlState) :
    (cancel_analysis id c).1 = .ok { task_id := id, status := "cancelled" } ∧
    ((backendAfterRun (financial_analysis q o)).state = "SUCCESS" ∨
      (backendAfterRun (financial_analysis q o)).state = "FAILURE") ∧
    ∀ u ∈ (financial_analysis q o).updates, ¬ u.1 = "CANCELLED" := by
  refine ⟨rfl, ?_, update_state_ne_cancelled q o⟩
  cases h : (financial_analysis q o).outcome <;> simp [backendAfterRun, h]

/-- Witness for C4 (amended) at a concrete update of a concrete run. -/
theorem runner_has_no_cancellation_check_inst :
    ¬ planningStart.1 = "CANCELLED" :=
  (runner_has_no_cancellation_check "any query" oAllOk "job-1"
    { revoked := [] }).2.2 planningStart (by decide)

/-- C7 counterexample: a status read on an id that was never created does not
fail with NotFound — it returns a fabricated PENDING record (progress 0) for
that id, because the Celery backend reports unknown ids as PENDING and the
handler has no not-found branch. -/
theorem status_unknown_id_cex :
    ¬ get_analysis_status "no-such-job" unknownTaskBackend =
        .error HttpError.notFound ∧
    get_analysis_status "no-such-job" unknownTaskBackend =
      .ok { task_id := "no-such-job", state := "PENDING", status := some "pending",
            message := some "Task is waiting to be processed", progress := some 0,
            phase := none, result := none, error := none } := by
  decide

/-- C7 (amended): a point-in-time status read on an unknown or expired job id
never fails with NotFound; it returns a fabricated PENDING snapshot with
progress 0 for the requested id. -/
theorem status_unknown_id_fabricates_pending (id : String) :
    get_analysis_status id unknownTaskBackend =
      .ok { task_id := id, state := "PENDING", status := some "pending",
            message := some "Task is waiting to be processed", progress := some 0,
            phase := none, result := none, error := none } := by
  simp [get_analysis_status, unknownTaskBackend]

/-- C9 counterexample: cancel on an unknown job id does not fail with
NotFound — the handler consults no store and accepts any id. -/
theorem cancel_unknown_id_cex :
    ¬ (cancel_analysis "no-such-job" { revoked := [] }).1 =
        .error HttpError.notFound ∧
    (cancel_analysis "no-such-job" { revoked := [] }).1 =
      .ok { task_id := "no-such-job", status := "cancelled" } := by
  decide

/-- C9 (amended): cancel never fails with NotFound: for any id — known,
unknown, or belonging to an already-terminal job — it records the revoke
request with the control plane and returns `(job_id, status := "cancelled")`,
meaning the request was accepted, not that the job has stopped; it mutates no
job record itself. -/
theorem cancel_always_accepts (id : String) (c : ControlState) :
    (cancel_analysis id c).1 = .ok { task_id := id, status := "cancelled" } ∧
    (cancel_analysis id c).2.revoked = id :: c.revoked :=
  ⟨rfl, rfl⟩

/-- The state of a non-terminal stream payload is exactly the backend state
observed that cycle. -/
theorem nonTerminalEvent_state (t : AsyncResult) :
    (nonTerminalEvent t).state = t.state := by
  unfold nonTerminalEvent
  split_ifs <;> simp_all [pendingEvent, progressEvent, otherEvent]

/-- Every pair the polling loop produces carries a cycle index no smaller than
the iteration the loop was at. -/
theorem streamFrom_index_ge (trace : Nat → AsyncResult) :
    ∀ fuel lk i p, p ∈ streamFrom trace lk i fuel → i ≤ p.1 := by
  intro fuel
  induction fuel with
  | zero =>
    intro lk i p hp
    simp only [streamFrom, List.mem_singleton] at hp
    subst hp
    exact Nat.le_refl i
  | succ f ih =>
    intro lk i p hp
    simp only [streamFrom] at hp
    split_ifs at hp <;>
      (try simp only [List.mem_singleton, List.mem_cons] at hp) <;>
      first
        | exact absurd hp (List.not_mem_nil p)
        | exact Nat.le_of_succ_le (ih _ _ _ hp)
        | (rcases hp with rfl | hp
           · exact Nat.le_refl i
           · first
              | exact absurd hp (List.not_mem_nil p)
              | exact Nat.le_of_succ_le (ih _ _ _ hp))

/-- No payload built by a non-terminal loop branch is the except-block's
ERROR payload (the states or the message field differ). -/
theorem nonTerminalEvent_ne_error (t : AsyncResult) :
    ¬ nonTerminalEvent t = streamErrorEvent := by
  unfold nonTerminalEvent
  split_ifs <;> simp_all [pendingEvent, progressEvent, otherEvent, streamErrorEvent]

/-- Core termination property of the polling loop, by induction on the
remaining fuel: provided the last emitted key (if any) is non-terminal — true
initially and preserved, since terminal emissions break the loop — the
produced sequence is non-empty, no snapshot before the last is terminal or
the ERROR payload, and the last snapshot is terminal, the ERROR payload (the
except block firing on an exception-shaped info), or the synthetic timeout
payload. -/
theorem streamFrom_terminating (trace : Nat → AsyncResult) :
    ∀ fuel lk i,
      (∀ k, lk = some k → ¬(k.1 = "SUCCESS" ∨ k.1 = "FAILURE")) →
      streamFrom trace lk i fuel ≠ [] ∧
      (∀ p ∈ (streamFrom trace lk i fuel).dropLast,
        ¬(p.2.state = "SUCCESS" ∨ p.2.state = "FAILURE") ∧
        ¬ p.2 = streamErrorEvent) ∧
      (∃ p, (streamFrom trace lk i fuel).getLast? = some p ∧
        (p.2.state = "SUCCESS" ∨ p.2.state = "FAILURE" ∨
          p.2 = streamErrorEvent ∨ p.2 = timeoutEvent)) := by
  intro fuel
  induction fuel with
  | zero =>
    intro lk i _
    exact ⟨by simp [streamFrom], by simp [streamFrom],
      ⟨(i, timeoutEvent), by simp [streamFrom], Or.inr (Or.inr (Or.inr rfl))⟩⟩
  | succ f ih =>
    intro lk i hlk
    simp only [streamFrom]
    by_cases hexc : (trace i).info = BackendInfo.pyExc
    · rw [if_pos hexc]
      exact ⟨by simp, by simp,
        ⟨(i, streamErrorEvent), by simp, Or.inr (Or.inr (Or.inl rfl))⟩⟩
    · rw [if_neg hexc]
      by_cases hc : lk = some (streamKey (trace i)) ∧ ¬ i % 5 = 0
      · rw [if_pos hc]
        have hterm : ¬((trace i).state = "SUCCESS" ∨ (trace i).state = "FAILURE") := by
          have h := hlk _ hc.1
          simpa [streamKey] using h
        rw [if_neg hterm]
        exact ih lk (i + 1) hlk
      · rw [if_neg hc]
        by_cases hs : (trace i).state = "SUCCESS"
        · rw [if_pos hs]
          exact ⟨by simp, by simp,
            ⟨(i, successEvent (trace i)), by simp, Or.inl rfl⟩⟩
        · rw [if_neg hs]
          by_cases hfl : (trace i).state = "FAILURE"
          · rw [if_pos hfl]
            exact ⟨by simp, by simp,
              ⟨(i, failureEvent (trace i)), by simp, Or.inr (Or.inl rfl)⟩⟩
          · rw [if_neg hfl]
            have hterm : ¬((trace i).state = "SUCCESS" ∨ (trace i).state = "FAILURE") := by
              tauto
            rw [if_neg hterm]
            have hrec := ih (some (streamKey (trace i))) (i + 1) (by
              intro k hk
              injection hk with hk'
              subst hk'
              simpa [streamKey] using hterm)
            obtain ⟨hne, hdl, p, hlast, hp⟩ := hrec
            obtain ⟨b, l, hbl⟩ :
                ∃ b l, streamFrom trace (some (streamKey (trace i))) (i + 1) f = b :: l := by
              cases hx : streamFrom trace (some (streamKey (trace i))) (i + 1) f with
              | nil => exact absurd hx hne
              | cons b l => exact ⟨b, l, rfl⟩
            rw [hbl] at hdl hlast
            rw [hbl]
            refine ⟨by simp, ?_, ⟨p, ?_, hp⟩⟩
            · intro pp hpp
              rw [List.dropLast_cons₂] at hpp
              rcases List.mem_cons.mp hpp with rfl | hpp'
              · exact ⟨by simpa [nonTerminalEvent_state] using hterm,
                  nonTerminalEvent_ne_error (trace i)⟩
              · exact hdl pp hpp'
            · rw [List.getLast?_cons_cons]
              exact hlast

/-- C5 (amended): the live progress stream is finite and emits at least one
snapshot; no snapshot before the last one is terminal or the ERROR payload,
and the last snapshot is one of: a SUCCESS or FAILURE snapshot (the loop's
terminal break — though the FAILURE branch is dead for real failed tasks,
whose exception-shaped info fires the except block first), the one synthetic
ERROR payload the except block yields when `current_info.get` raises on an
exception-shaped info (the case for FAILURE and REVOKED tasks), or — when
none of these occur within the 600 one-second polling iterations — the one
synthetic timeout payload. -/
theorem stream_terminates (trace : Nat → AsyncResult) :
    event_generator trace ≠ [] ∧
    (∀ p ∈ (event_generator trace).dropLast,
      ¬(p.2.state = "SUCCESS" ∨ p.2.state = "FAILURE") ∧
      ¬ p.2 = streamErrorEvent) ∧
    (∃ p, (event_generator trace).getLast? = some p ∧
      (p.2.state = "SUCCESS" ∨ p.2.state = "FAILURE" ∨
        p.2 = streamErrorEvent ∨ p.2 = timeoutEvent)) :=
  streamFrom_terminating trace 600 none 0 (by intro k hk; cases hk)

/-- Witness for C5 on a concrete trace (PENDING, then SUCCESS): the first
emitted snapshot is neither terminal nor the ERROR payload. -/
theorem stream_terminates_inst :
    ¬((((0 : Nat), pendingEvent)).2.state = "SUCCESS" ∨
      (((0 : Nat), pendingEvent)).2.state = "FAILURE") ∧
    ¬(((0 : Nat), pendingEvent)).2 = streamErrorEvent :=
  (stream_terminates tracePendingThenSuccess).2.1 (0, pendingEvent) (by decide)

/-- C5 counterexample: on the trace of a real failing job (PENDING, then
FAILURE whose `info` is the exception instance) the stream ends with the
synthetic ERROR snapshot from the except block — its last event is neither a
snapshot in a terminal state (SUCCESS/FAILURE, the spec's SUCCEEDED/FAILED;
CANCELLED never occurs) nor the timeout payload, refuting the claim that the
stream always ends with one of those two. -/
theorem stream_error_snapshot_cex :
    (event_generator traceFailingJob).map Prod.snd = [pendingEvent, streamErrorEvent] ∧
    ¬ streamErrorEvent.state = "SUCCESS" ∧
    ¬ streamErrorEvent.state = "FAILURE" ∧
    ¬ streamErrorEvent.state = "CANCELLED" ∧
    ¬ streamErrorEvent = timeoutEvent := by
  decide

/-- C6 (amended): at every loop configuration the stream reaches (any last
emitted key `lk`, any cycle `i`, fuel remaining), a snapshot is emitted at
cycle `i` exactly when the cycle's info is exception-shaped (the except block
yields the ERROR payload unconditionally), or the backend's
`(state, phase, progress, status)` key — the tuple the code actually
compares, with `status` where the spec says `message` — differs from the last
emitted one, or the cycle index is a multiple of the heartbeat interval 5.
On every cycle whose info is a dict or absent (all cycles the spec's tuple
speaks about) the first disjunct is false and this is exactly the
changed-or-heartbeat characterisation. -/
theorem stream_emits_iff (trace : Nat → AsyncResult)
    (lk : Option (String × Option String × Option Nat × Option String))
    (i fuel : Nat) (hfuel : 0 < fuel) :
    (∃ e, (i, e) ∈ streamFrom trace lk i fuel) ↔
      ((trace i).info = BackendInfo.pyExc ∨
        ¬ lk = some (streamKey (trace i)) ∨ i % 5 = 0) := by
  obtain ⟨f, rfl⟩ : ∃ f, fuel = f + 1 := ⟨fuel - 1, by omega⟩
  by_cases hexc : (trace i).info = BackendInfo.pyExc
  · constructor
    · intro _
      exact Or.inl hexc
    · intro _
      refine ⟨streamErrorEvent, ?_⟩
      simp only [streamFrom]
      rw [if_pos hexc]
      exact List.mem_singleton.mpr rfl
  · constructor
    · rintro ⟨e, he⟩
      by_contra hcon
      push_neg at hcon
      simp only [streamFrom] at he
      rw [if_neg hexc] at he
      rw [if_pos ⟨hcon.2.1, hcon.2.2⟩] at he
      split_ifs at he
      · exact absurd he (List.not_mem_nil _)
      · have h := streamFrom_index_ge trace f lk (i + 1) (i, e) he
        simp only at h
        omega
    · intro hsend
      have hc : ¬(lk = some (streamKey (trace i)) ∧ ¬ i % 5 = 0) := by tauto
      simp only [streamFrom]
      rw [if_neg hexc]
      rw [if_neg hc]
      by_cases hs : (trace i).state = "SUCCESS"
      · rw [if_pos hs]
        exact ⟨successEvent (trace i), List.mem_singleton.mpr rfl⟩
      · rw [if_neg hs]
        by_cases hfl : (trace i).state = "FAILURE"
        · rw [if_pos hfl]
          exact ⟨failureEvent (trace i), List.mem_singleton.mpr rfl⟩
        · rw [if_neg hfl]
          exact ⟨nonTerminalEvent (trace i), List.mem_cons_self _ _⟩

/-- Witness for C6 (amended): at cycle 0 (a heartbeat cycle) a snapshot is
emitted. -/
theorem stream_emits_iff_inst :
    ∃ e, ((0 : Nat), e) ∈ streamFrom tracePendingThenSuccess none 0 600 :=
  (stream_emits_iff tracePendingThenSuccess none 0 600 (by decide)).mpr
    (Or.inr (Or.inr (by decide)))

/-- C6 counterexample: on the concrete trace where between cycle 0 and
cycle 1 only the meta's `message` changes (state, phase, progress and status
are unchanged), the spec's `(state, phase, progress, message)` tuple does
change at cycle 1 and cycle 1 is not a heartbeat, yet the stream emits no
snapshot at cycle 1 (the emitted cycles are exactly 0 and 2): the code keys
change detection on `status`, not `message`. -/
theorem stream_message_change_not_emitted_cex :
    ¬ specChangeTuple (traceMsgOnlyChange 1) = specChangeTuple (traceMsgOnlyChange 0) ∧
    streamKey (traceMsgOnlyChange 1) = streamKey (traceMsgOnlyChange 0) ∧
    ¬ (1 % 5 = 0) ∧
    (event_generator traceMsgOnlyChange).map Prod.fst = [0, 2] := by
  decide

/-- Every snapshot the polling loop ever emits carries either the synthetic
TIMEOUT marker, the except-block's ERROR marker, a terminal SUCCESS/FAILURE
state, or a state observed on the backend trace at some cycle. -/
theorem streamFrom_states (trace : Nat → AsyncResult) :
    ∀ fuel lk i p, p ∈ streamFrom trace lk i fuel →
      p.2.state = "TIMEOUT" ∨ p.2.state = "ERROR" ∨
        p.2.state = "SUCCESS" ∨ p.2.state = "FAILURE" ∨
        ∃ j, p.2.state = (trace j).state := by
  intro fuel
  induction fuel with
  | zero =>
    intro lk i p hp
    simp only [streamFrom, List.mem_singleton] at hp
    subst hp
    exact Or.inl rfl
  | succ f ih =>
    intro lk i p hp
    simp only [streamFrom] at hp
    split_ifs at hp <;>
      (try simp only [List.mem_singleton, List.mem_cons, List.not_mem_nil,
        or_false] at hp) <;>
      first
        | exact hp.elim
        | exact absurd hp (List.not_mem_nil p)
        | exact ih _ _ _ hp
        | (subst hp; exact Or.inr (Or.inl rfl))
        | (subst hp; exact Or.inr (Or.inr (Or.inl rfl)))
        | (subst hp; exact Or.inr (Or.inr (Or.inr (Or.inl rfl))))
        | (subst hp
           exact Or.inr (Or.inr (Or.inr (Or.inr ⟨i, nonTerminalEvent_state (trace i)⟩))))
        | (rcases hp with rfl | hp
           · exact Or.inr (Or.inr (Or.inr (Or.inr ⟨i, nonTerminalEvent_state (trace i)⟩)))
           · exact ih _ _ _ hp)

/-- A backend state reachable for an analysis job is never the string
CANCELLED: Celery's own states do not include it and the pipeline only ever
writes PROGRESS or FAILURE. -/
theorem reachable_ne_cancelled : ∀ s, reachableBackendState s → ¬ s = "CANCELLED" := by
  rintro s (hs | ⟨q, o, u, hu, rfl⟩)
  · simp only [celeryBuiltinStates, List.mem_cons, List.mem_singleton,
      List.not_mem_nil, or_false] at hs
    rcases hs with rfl | rfl | rfl | rfl | rfl | rfl <;> decide
  · exact update_state_ne_cancelled q o u hu

/-- C10: for any backend state outside the four handled cases PENDING,
PROGRESS, SUCCESS and FAILURE (for instance STARTED, RETRY, or REVOKED — the
state a revoked job actually enters), the status read returns a response
carrying only the id and the raw state string, every optional field absent;
and no reachable backend state — hence no status snapshot's state and no
stream snapshot's state over a reachable trace — is ever CANCELLED. -/
theorem unknown_state_passthrough_no_cancelled :
    (∀ id t, ¬(t.state = "PENDING" ∨ t.state = "PROGRESS" ∨
        t.state = "SUCCESS" ∨ t.state = "FAILURE") →
      get_analysis_status id t =
        .ok { task_id := id, state := t.state, status := none, message := none,
              progress := none, phase := none, result := none, error := none }) ∧
    (∀ s, reachableBackendState s → ¬ s = "CANCELLED") ∧
    (∀ trace : Nat → AsyncResult, (∀ j, reachableBackendState (trace j).state) →
      ∀ p ∈ event_generator trace, ¬ p.2.state = "CANCELLED") := by
  refine ⟨?_, reachable_ne_cancelled, ?_⟩
  · intro id t ht
    push_neg at ht
    obtain ⟨h1, h2, h3, h4⟩ := ht
    simp [get_analysis_status, h1, h2, h3, h4]
  · intro trace htr p hp
    rcases streamFrom_states trace 600 none 0 p hp with h | h | h | h | ⟨j, hj⟩
    · simp [h]
    · simp [h]
    · simp [h]
    · simp [h]
    · rw [hj]
      exact reachable_ne_cancelled _ (htr j)

/-- Witness for C10: a status read on a REVOKED task returns the bare
passthrough response. -/
theorem unknown_state_passthrough_inst :
    get_analysis_status "job-9" revokedBackend =
      .ok { task_id := "job-9", state := "REVOKED", status := none, message := none,
            progress := none, phase := none, result := none, error := none } := by
  have h := unknown_state_passthrough_no_cancelled.1 "job-9" revokedBackend (by decide)
  simpa [revokedBackend] using h

/-- C8: submission succeeds exactly on well-formed requests (query present,
10–1000 characters, reasoning depth standard/deep or defaulted) — a malformed
request is rejected by validation before any job is dispatched — and on
success it immediately returns the fresh task id with status "started" and
the fixed message, independent of any pipeline execution; a status read on
the fresh id (whose backend holds no meta yet) returns PENDING, never
NotFound. -/
theorem submission_contract (raw : RawSubmission) (fid : String) :
    ((∃ resp req, start_financial_analysis raw fid = .ok (resp, req)) ↔
      specWellFormedSubmission raw) ∧
    (∀ resp req, start_financial_analysis raw fid = .ok (resp, req) →
      resp.task_id = fid ∧ resp.status = "started" ∧
      resp.message = "Financial analysis started. Use the task_id to check progress." ∧
      get_analysis_status fid unknownTaskBackend =
        .ok { task_id := fid, state := "PENDING", status := some "pending",
              message := some "Task is waiting to be processed", progress := some 0,
              phase := none, result := none, error := none }) := by
  obtain ⟨oq, uc, rd⟩ := raw
  constructor
  · constructor
    · rintro ⟨resp, req, h⟩
      cases oq with
      | none => simp [start_financial_analysis, validateAnalysisRequest] at h
      | some q =>
        simp only [start_financial_analysis, validateAnalysisRequest] at h
        split_ifs at h with h1 h2 h3 <;>
        first
          | (simp at h; done)
          | (refine ⟨q, rfl, by omega, by omega, ?_⟩
             cases rd with
             | none => exact Or.inl rfl
             | some d =>
               rcases h3 with h3 | h3 <;> simp only [Option.getD] at h3 <;> subst h3
               · exact Or.inr (Or.inl rfl)
               · exact Or.inr (Or.inr rfl))
    · rintro ⟨q, hq, hl1, hl2, hd⟩
      simp only at hq
      subst hq
      simp only [start_financial_analysis, validateAnalysisRequest]
      rw [if_neg (by omega), if_neg (by omega)]
      have hdep : ((rd.getD "standard") = "standard" ∨ (rd.getD "standard") = "deep") := by
        rcases hd with hd | hd | hd <;> simp only at hd <;> subst hd
        · exact Or.inl rfl
        · exact Or.inl rfl
        · exact Or.inr rfl
      rw [if_pos hdep]
      exact ⟨_, _, rfl⟩
  · rintro resp req h
    cases oq with
    | none => simp [start_financial_analysis, validateAnalysisRequest] at h
    | some q =>
      simp only [start_financial_analysis, validateAnalysisRequest] at h
      split_ifs at h <;>
      first
        | (simp at h; done)
        | (simp only [Except.ok.injEq, Prod.mk.injEq] at h
           obtain ⟨hresp, hreq⟩ := h
           subst hresp
           exact ⟨rfl, rfl, rfl, by simp [get_analysis_status, unknownTaskBackend]⟩)

/-- Witness for C8: a concrete well-formed submission is accepted and the
fresh id's immediate status read reports PENDING. -/
theorem submission_contract_inst :
    get_analysis_status "task-42" unknownTaskBackend =
      .ok { task_id := "task-42", state := "PENDING", status := some "pending",
            message := some "Task is waiting to be processed", progress := some 0,
            phase := none, result := none, error := none } :=
  ((submission_contract
      { query := some "Should I rotate out of token X?", user_context := none,
        reasoning_depth := some "standard" } "task-42").2
    { task_id := "task-42", status := "started",
      message := "Financial analysis started. Use the task_id to check progress." }
    { query := "Should I rotate out of token X?", user_context := none,
      reasoning_depth := "standard" }
    (by decide)).2.2.2
